import Mathlib

/-
Verification of the attribute-interception layer of the repository:
the shared validated descriptor (item 46, class Grade) and the lazy /
intercepted attribute classes (item 47, LazyRecord, SavingRecord,
LoggingSavingRecord, BrokenDictionaryRecord, DictionaryRecord,
MissingPropertyRecord).

Records are modelled by their identity (a natural number) when they are
used as side-table keys, and by their instance dictionary (an association
list from attribute name to value) when their own attribute store matters.
Python dictionaries are modelled as association lists with in-place update
semantics (an update replaces the existing entry, an insert appends).
Python exceptions are modelled with Except; a raise that happens before a
mutation leaves the pre-state unchanged, which the state-passing style
makes explicit.
-/

set_option autoImplicit false

/-- Association-list lookup, the model of Python dictionary indexing and
of dict.get. -/
def lookupA {κ α : Type} [DecidableEq κ] (k : κ) : List (κ × α) → Option α
  | [] => none
  | (k', v) :: rest => if k' = k then some v else lookupA k rest

/-- Association-list insert with Python dictionary update semantics: an
existing entry for the key is replaced in place, otherwise the new entry
is appended at the end. -/
def insertA {κ α : Type} [DecidableEq κ] (k : κ) (v : α) : List (κ × α) → List (κ × α)
  | [] => [(k, v)]
  | (k', v') :: rest => if k' = k then (k, v) :: rest else (k', v') :: insertA k v rest

/-- The ValueError raised by Grade.__set__, spec name ValidationError. -/
structure ValidationError where
  reason : String
deriving DecidableEq

/-- The final Grade descriptor of 46_descriptors.py: a shared descriptor
whose per-record state lives in the side-table self.values, a
weakref.WeakKeyDictionary keyed by record identity. -/
structure Grade where
  values : List (Nat × Int)
deriving DecidableEq

/-- Result of Grade.__get__: either the descriptor object itself (the
class-level access path, instance is None) or a stored/default value. -/
inductive GradeGetResult where
  | self (g : Grade)
  | value (v : Int)
deriving DecidableEq

/-- Grade.__get__ from 46_descriptors.py: if instance is None return self,
otherwise return self.values.get(instance, 0). Total: never raises. -/
def Grade.get (g : Grade) (inst : Option Nat) : GradeGetResult :=
  match inst with
  | none => .self g
  | some i => .value ((lookupA i g.values).getD 0)

/-- Grade.__set__ from 46_descriptors.py: if not (0 <= value <= 100),
raise ValueError before any mutation (the returned state is the unchanged
pre-state); otherwise store value under the record in the side-table. -/
def Grade.set (g : Grade) (inst : Nat) (value : Int) :
    Except ValidationError Unit × Grade :=
  if ¬ (0 ≤ value ∧ value ≤ 100) then
    (.error ⟨"Grade must be between 0 and 100"⟩, g)
  else
    (.ok (), { values := insertA inst value g.values })

/-- Modelled from the spec: the automatic reclamation performed by
weakref.WeakKeyDictionary is runtime garbage-collector behaviour, not code
of this repository; the spec says an entry is removed once no strong
reference to its record remains. A collection step keeps exactly the
entries whose record identity is still live. -/
def Grade.collect (g : Grade) (live : List Nat) : Grade :=
  { values := g.values.filter (fun p => live.contains p.1) }

/-- A Python value as it appears in the item-47 examples: None, an int, a
string, or a dictionary. -/
inductive PyValue where
  | none
  | int (n : Int)
  | str (s : String)
  | dict (entries : List (String × PyValue))

/-- A Python exception as raised by the item-47 attribute machinery. -/
inductive PyError where
  | attributeError (msg : String)
  | keyError (k : String)
  | typeError
  | recursionError
deriving DecidableEq

/-- A record's instance dictionary: its own attribute store. -/
def Store : Type := List (String × PyValue)

/-- object.__getattribute__, the raw bypass path: look the name up in the
instance dictionary; on a miss raise AttributeError. -/
def objectGetattribute (store : Store) (name : String) : Except PyError PyValue :=
  match lookupA name store with
  | some v => .ok v
  | Option.none => .error (.attributeError name)

/-- object.__setattr__, the raw write primitive: store the value in the
instance dictionary under the name. -/
def objectSetattr (store : Store) (name : String) (value : PyValue) : Store :=
  insertA name value store

/-- Python dictionary indexing d[name]: KeyError on a missing key,
TypeError when the subscripted value is not a dictionary. -/
def PyValue.index (v : PyValue) (name : String) : Except PyError PyValue :=
  match v with
  | .dict entries =>
    match lookupA name entries with
    | some w => .ok w
    | Option.none => .error (.keyError name)
  | _ => .error .typeError

/-- The compute function of LazyRecord.__getattr__: value = f'Value for {name}'. -/
def lazyCompute (name : String) : PyValue :=
  .str ("Value for " ++ name)

/-- LazyRecord.__init__: self.exists = 5. -/
def LazyRecord.init : Store :=
  objectSetattr [] "exists" (.int 5)

/-- LazyRecord.__getattr__ from 47_lazy_attributes.py: compute the value,
setattr it into the instance dictionary, return it. The final component
counts invocations of the compute function (one per hook call). -/
def LazyRecord.getattr (store : Store) (name : String) : Store × PyValue × Nat :=
  let value := lazyCompute name
  (objectSetattr store name value, value, 1)

/-- A full attribute read on a LazyRecord: Python consults the instance
dictionary first and calls __getattr__ only when the name is missing
there. Returns the post-state, the value, and how many times the compute
function ran during this read. -/
def LazyRecord.read (store : Store) (name : String) : Store × PyValue × Nat :=
  match lookupA name store with
  | some v => (store, v, 0)
  | Option.none => LazyRecord.getattr store name

/-- MissingPropertyRecord.__getattr__ from 47_lazy_attributes.py: raise
AttributeError for the name bad_name, otherwise the body is just an
ellipsis expression and the method returns None. -/
def MissingPropertyRecord.getattr (name : String) : Except PyError PyValue :=
  if name = "bad_name" then .error (.attributeError (name ++ " is missing"))
  else .ok .none

/-- SavingRecord.__setattr__ from 47_lazy_attributes.py: the save step is
an ellipsis (a no-op placeholder side effect), then super().__setattr__
commits unconditionally. -/
def SavingRecord.setattr (store : Store) (name : String) (value : PyValue) : Store :=
  objectSetattr store name value

/-- LoggingSavingRecord.__setattr__ from 47_lazy_attributes.py: append the
log line (the print side effect), then super().__setattr__, which is
SavingRecord's and commits to the instance dictionary. -/
def LoggingSavingRecord.setattr (log : List String) (store : Store)
    (name : String) (value : PyValue) : List String × Store :=
  (log ++ ["* Called __setattr__ " ++ name], SavingRecord.setattr store name value)

/-- BrokenDictionaryRecord.__getattribute__ from 47_lazy_attributes.py:
return self._data[name], where self._data is itself an intercepted access
that re-enters this very method with the name _data. Each re-entry
consumes one unit of fuel (one stack frame); exhausted fuel is Python's
RecursionError. -/
def BrokenDictionaryRecord.getattribute : Nat → String → Except PyError PyValue
  | 0, _ => .error .recursionError
  | fuel + 1, name =>
    match BrokenDictionaryRecord.getattribute fuel "_data" with
    | .error e => .error e
    | .ok dataDict => dataDict.index name

/-- DictionaryRecord.__init__ from 47_lazy_attributes.py: self._data = data
on a fresh instance dictionary. -/
def DictionaryRecord.init (data : List (String × PyValue)) : Store :=
  objectSetattr [] "_data" (.dict data)

/-- DictionaryRecord.__getattribute__ from 47_lazy_attributes.py: fetch
data_dict = super().__getattribute__('_data') through the raw bypass path
(no re-entry), then return data_dict[name]. -/
def DictionaryRecord.getattribute (store : Store) (name : String) :
    Except PyError PyValue :=
  match objectGetattribute store "_data" with
  | .error e => .error e
  | .ok dataDict => dataDict.index name

/-- Fuel-instrumented DictionaryRecord.__getattribute__: entering the
intercepted entry point consumes one unit of fuel; the body performs no
further intercepted access, so no more fuel is consumed. -/
def DictionaryRecord.getattributeFuel (store : Store) :
    Nat → String → Except PyError PyValue
  | 0, _ => .error .recursionError
  | _ + 1, name =>
    match objectGetattribute store "_data" with
    | .error e => .error e
    | .ok dataDict => dataDict.index name

/-- Looking up the key just inserted returns the inserted value. -/
theorem lookupA_insertA_self {κ α : Type} [DecidableEq κ] (k : κ) (v : α)
    (l : List (κ × α)) : lookupA k (insertA k v l) = some v := by
  induction l with
  | nil => simp [insertA, lookupA]
  | cons hd tl ih =>
    by_cases h : hd.1 = k
    · simp [insertA, lookupA, h]
    · simp [insertA, lookupA, h, ih]

/-- Inserting under one key leaves lookups of any other key unchanged. -/
theorem lookupA_insertA_ne {κ α : Type} [DecidableEq κ] (k k' : κ) (v : α)
    (l : List (κ × α)) (h : k ≠ k') : lookupA k' (insertA k v l) = lookupA k' l := by
  induction l with
  | nil => simp [insertA, lookupA, h]
  | cons hd tl ih =>
    by_cases hk : hd.1 = k
    · simp [insertA, lookupA, hk, h]
    · simp [insertA, lookupA, hk, ih]

/-- Claim C1: isolation of per-record descriptor state — for two distinct
records a and b sharing the same Grade descriptor, a successful write of a
valid value to a's entry never changes what a subsequent read for b
returns. -/
theorem grade_isolation (g : Grade) (a b : Nat) (v : Int) (hab : a ≠ b)
    (hv : 0 ≤ v ∧ v ≤ 100) :
    (g.set a v).1 = .ok () ∧ (g.set a v).2.get (some b) = g.get (some b) := by
  constructor
  · simp [Grade.set, hv]
  · simp [Grade.set, hv, Grade.get, lookupA_insertA_ne a b v g.values hab]

/-- Witness for grade_isolation at a concrete descriptor and records. -/
theorem grade_isolation_witness :
    ((1 : Nat) ≠ 2 ∧ (0 ≤ (82 : Int) ∧ (82 : Int) ≤ 100)) ∧
    ((Grade.mk []).set 1 82).1 = .ok () ∧
    ((Grade.mk []).set 1 82).2.get (some 2) = (Grade.mk []).get (some 2) :=
  ⟨⟨by decide, by decide⟩, grade_isolation (Grade.mk []) 1 2 82 (by decide) (by decide)⟩

/-- Claim C2: atomic rejection on failed validation — a write of a value
outside 0..100 signals the ValidationError, leaves the side-table entry
(indeed the whole descriptor state) unchanged, and a read for the record
afterwards returns exactly what it returned before the failed write. -/
theorem grade_atomic_rejection (g : Grade) (r : Nat) (v : Int)
    (hv : ¬ (0 ≤ v ∧ v ≤ 100)) :
    (g.set r v).1 = .error ⟨"Grade must be between 0 and 100"⟩ ∧
    (g.set r v).2 = g ∧
    (g.set r v).2.get (some r) = g.get (some r) := by
  refine ⟨?_, ?_, ?_⟩ <;> simp [Grade.set, hv]

/-- Witness for grade_atomic_rejection at the spec's scenario value 150. -/
theorem grade_atomic_rejection_witness :
    ¬ (0 ≤ (150 : Int) ∧ (150 : Int) ≤ 100) ∧
    ((Grade.mk [(1, 95)]).set 1 150).1 = .error ⟨"Grade must be between 0 and 100"⟩ ∧
    ((Grade.mk [(1, 95)]).set 1 150).2 = Grade.mk [(1, 95)] ∧
    ((Grade.mk [(1, 95)]).set 1 150).2.get (some 1) = (Grade.mk [(1, 95)]).get (some 1) :=
  ⟨by decide, grade_atomic_rejection (Grade.mk [(1, 95)]) 1 150 (by decide)⟩

/-- Claim C6: total default read — a record with no side-table entry reads
the default 0; Grade.get is a total function, so no error is possible. -/
theorem grade_default_read (g : Grade) (r : Nat)
    (h : lookupA r g.values = none) :
    g.get (some r) = .value 0 := by
  simp [Grade.get, h]

/-- Witness for grade_default_read on an empty side-table. -/
theorem grade_default_read_witness :
    lookupA 7 (Grade.mk []).values = none ∧ (Grade.mk []).get (some 7) = .value 0 :=
  ⟨rfl, grade_default_read (Grade.mk []) 7 rfl⟩

/-- Claim C8: no leak via the weak side-table — after a collection step, a
record that is no longer live has no entry left in the side-table, and
when no record is live at all the count of side-table entries is zero. -/
theorem grade_no_leak (g : Grade) (live : List Nat) (r : Nat)
    (h : live.contains r = false) :
    lookupA r (g.collect live).values = none ∧
    (g.collect []).values.length = 0 := by
  constructor
  · show lookupA r (g.values.filter (fun p => live.contains p.1)) = none
    induction g.values with
    | nil => rfl
    | cons hd tl ih =>
      obtain ⟨k, v⟩ := hd
      by_cases hl : live.contains k = true
      · have hk : k ≠ r := by
          intro he
          rw [he, h] at hl
          exact Bool.noConfusion hl
        rw [List.filter_cons, if_pos hl]
        show (if k = r then some v else lookupA r (List.filter (fun p => live.contains p.1) tl)) = none
        rw [if_neg hk]
        exact ih
      · rw [List.filter_cons, if_neg hl]
        exact ih
  · show (g.values.filter (fun p => List.contains [] p.1)).length = 0
    simp [List.contains]

/-- Witness for grade_no_leak: record 1 is dead, record 2 still live. -/
theorem grade_no_leak_witness :
    List.contains [2] 1 = false ∧
    lookupA 1 ((Grade.mk [(1, 82), (2, 75)]).collect [2]).values = none ∧
    ((Grade.mk [(1, 82), (2, 75)]).collect []).values.length = 0 :=
  ⟨by decide, grade_no_leak (Grade.mk [(1, 82), (2, 75)]) [2] 1 (by decide)⟩

/-- Claim C9: class-level read returns the descriptor itself — Grade.__get__
with instance None returns the Grade object, which is neither the default
value 0 nor any other plain value, and no error is raised. -/
theorem grade_class_level_read (g : Grade) :
    g.get none = .self g ∧ ∀ v : Int, g.get none ≠ .value v := by
  constructor
  · rfl
  · intro v h
    exact GradeGetResult.noConfusion h

/-- Claim C3: lazy idempotence — for a name not already present in the
store, the first read runs the compute function once, stores the result,
and returns it; the second read runs the compute function zero times and
returns the same value straight from the store. -/
theorem lazy_idempotence (store : Store) (name : String)
    (h : lookupA name store = none) :
    (LazyRecord.read store name).2.2 = 1 ∧
    (LazyRecord.read (LazyRecord.read store name).1 name).2.2 = 0 ∧
    (LazyRecord.read (LazyRecord.read store name).1 name).2.1 =
      (LazyRecord.read store name).2.1 ∧
    lookupA name (LazyRecord.read store name).1 =
      some (LazyRecord.read store name).2.1 := by
  have h1 : LazyRecord.read store name =
      (objectSetattr store name (lazyCompute name), lazyCompute name, 1) := by
    simp [LazyRecord.read, h, LazyRecord.getattr]
  have h2 : lookupA name (objectSetattr store name (lazyCompute name)) =
      some (lazyCompute name) :=
    lookupA_insertA_self name (lazyCompute name) store
  rw [h1]
  refine ⟨rfl, ?_, ?_, h2⟩
  · simp [LazyRecord.read, h2]
  · simp [LazyRecord.read, h2]

/-- Witness for lazy_idempotence: the fresh LazyRecord of the source and
the missing name foo. -/
theorem lazy_idempotence_witness :
    lookupA "foo" LazyRecord.init = none ∧
    ((LazyRecord.read LazyRecord.init "foo").2.2 = 1 ∧
     (LazyRecord.read (LazyRecord.read LazyRecord.init "foo").1 "foo").2.2 = 0 ∧
     (LazyRecord.read (LazyRecord.read LazyRecord.init "foo").1 "foo").2.1 =
       (LazyRecord.read LazyRecord.init "foo").2.1 ∧
     lookupA "foo" (LazyRecord.read LazyRecord.init "foo").1 =
       some (LazyRecord.read LazyRecord.init "foo").2.1) :=
  ⟨rfl, lazy_idempotence LazyRecord.init "foo" rfl⟩

/-- Counterexample to claim C4: on a DictionaryRecord backed by the
dictionary of the source, the unresolvable name bar signals KeyError, not
the AttributeError condition the claim requires. -/
theorem interceptor_missing_name_counterexample :
    DictionaryRecord.getattribute (DictionaryRecord.init [("foo", PyValue.int 3)]) "bar" =
      .error (.keyError "bar") ∧
    DictionaryRecord.getattribute (DictionaryRecord.init [("foo", PyValue.int 3)]) "bar" ≠
      .error (.attributeError "bar") := by
  refine ⟨rfl, ?_⟩
  intro hcontra
  rw [show DictionaryRecord.getattribute (DictionaryRecord.init [("foo", PyValue.int 3)]) "bar" =
      Except.error (PyError.keyError "bar") from rfl] at hcontra
  simp at hcontra

/-- Claim C4 as amended: a name the backing dictionary cannot resolve
makes DictionaryRecord's read signal KeyError (the dictionary's
missing-key condition); the uniform AttributeError missing-attribute
signal is raised by MissingPropertyRecord.__getattr__ for bad_name. -/
theorem interceptor_missing_name_amended (backing : List (String × PyValue))
    (name : String) (h : lookupA name backing = none) :
    DictionaryRecord.getattribute (DictionaryRecord.init backing) name =
      .error (.keyError name) ∧
    MissingPropertyRecord.getattr "bad_name" =
      .error (.attributeError "bad_name is missing") := by
  constructor
  · show PyValue.index (PyValue.dict backing) name = _
    simp [PyValue.index, h]
  · rfl

/-- Witness for interceptor_missing_name_amended at the concrete backing
dictionary of the source. -/
theorem interceptor_missing_name_amended_witness :
    lookupA "bar" [("foo", PyValue.int 3)] = none ∧
    (DictionaryRecord.getattribute (DictionaryRecord.init [("foo", PyValue.int 3)]) "bar" =
       .error (.keyError "bar") ∧
     MissingPropertyRecord.getattr "bad_name" =
       .error (.attributeError "bad_name is missing")) :=
  ⟨rfl, interceptor_missing_name_amended [("foo", PyValue.int 3)] "bar" rfl⟩

/-- Every run of BrokenDictionaryRecord.__getattribute__ re-enters itself
on _data before doing anything else, so whatever the fuel, the access
exhausts it and ends in RecursionError. -/
theorem broken_recursion_all_fuel : ∀ (fuel : Nat) (name : String),
    BrokenDictionaryRecord.getattribute fuel name = .error .recursionError := by
  intro fuel
  induction fuel with
  | zero => intro name; rfl
  | succ f ih =>
    intro name
    simp only [BrokenDictionaryRecord.getattribute, ih]

/-- Claim C5: bounded recursion through self-referential interception —
DictionaryRecord's intercepted read gives the same answer with any
positive fuel as the unfueled function (the entry point is entered exactly
once, never re-entered), whereas BrokenDictionaryRecord's read exhausts
every fuel bound and ends in RecursionError. -/
theorem interceptor_no_recursion (store : Store) (name : String) (fuel : Nat)
    (h : 1 ≤ fuel) :
    DictionaryRecord.getattributeFuel store fuel name =
      DictionaryRecord.getattribute store name ∧
    BrokenDictionaryRecord.getattribute fuel name = .error .recursionError := by
  constructor
  · obtain ⟨f, rfl⟩ : ∃ f, fuel = f + 1 := ⟨fuel - 1, (Nat.succ_pred_eq_of_pos h).symm⟩
    rfl
  · exact broken_recursion_all_fuel fuel name

/-- Witness for interceptor_no_recursion with one unit of fuel and the
source's backing dictionary. -/
theorem interceptor_no_recursion_witness :
    1 ≤ 1 ∧
    (DictionaryRecord.getattributeFuel (DictionaryRecord.init [("foo", PyValue.int 3)]) 1 "foo" =
       DictionaryRecord.getattribute (DictionaryRecord.init [("foo", PyValue.int 3)]) "foo" ∧
     BrokenDictionaryRecord.getattribute 1 "foo" = .error .recursionError) :=
  ⟨by decide,
   interceptor_no_recursion (DictionaryRecord.init [("foo", PyValue.int 3)]) "foo" 1 (by decide)⟩

/-- Claim C7: the write interceptor always commits — after the call the
log has grown by the side-effect entry and the instance dictionary maps
the name to exactly the written value. -/
theorem write_interceptor_commits (log : List String) (store : Store)
    (name : String) (value : PyValue) :
    lookupA name (LoggingSavingRecord.setattr log store name value).2 = some value ∧
    (LoggingSavingRecord.setattr log store name value).1 =
      log ++ ["* Called __setattr__ " ++ name] :=
  ⟨lookupA_insertA_self name value store, rfl⟩

/-- Claim C10: the full interceptor shadows its own backing field — every
externally requested name, the backing field name _data included, is
resolved by indexing the backing dictionary: the entry's value when the
key exists, KeyError when it does not; in particular the
instance-dictionary value of _data is never what the intercepted path
returns. -/
theorem interceptor_shadows_backing_field (backing : List (String × PyValue))
    (name : String) :
    DictionaryRecord.getattribute (DictionaryRecord.init backing) name =
      (match lookupA name backing with
       | some v => Except.ok v
       | Option.none => Except.error (PyError.keyError name)) := by
  show PyValue.index (PyValue.dict backing) name = _
  rfl
